import Mathlib

/-!
Verification of the AAudio client-side playback streaming engine
(`media/libaaudio/src/client/AudioStreamInternalPlay.cpp` and
`media/libaaudio/src/utility/FixedBlockWriter.cpp`), shallowly embedded in Lean.

Frame counters are modelled as `Int` (the source uses `int64_t`; none of the verified
paths can overflow 64 bits for the magnitudes involved, so wrap-around is not modelled).
Configuration values (sample rates, burst sizes, buffer sizes) are `Nat`, matching the
nonnegative `int32_t` values the source guarantees for them; C truncating division on
them coincides with `Nat` division.  `aaudio_result_t` is an `Int`, negative on error,
as in the source.
-/

/-- Result codes from the public AAudio API (`aaudio/AAudio.h`, an external interface
of this component): only their distinctness and sign matter to the verified code. -/
def AAUDIO_OK : Int := 0

def AAUDIO_ERROR_DISCONNECTED : Int := -899

def AAUDIO_ERROR_INVALID_STATE : Int := -895

def AAUDIO_ERROR_UNIMPLEMENTED : Int := -890

def AAUDIO_ERROR_TIMEOUT : Int := -885

def AAUDIO_ERROR_OUT_OF_RANGE : Int := -882

def AAUDIO_MILLIS_PER_SECOND : Nat := 1000

def AAUDIO_NANOS_PER_MICROSECOND : Int := 1000

def AAUDIO_NANOS_PER_MILLISECOND : Int := 1000000

/-- `AAudio_FlushFromAccuracy` from the public API. -/
inductive FlushFromAccuracy where
  | undefined
  | accurate
deriving DecidableEq

/-- `aaudio_performance_mode_t`. -/
inductive PerformanceMode where
  | perfNone
  | lowLatency
  | powerSaving
  | powerSavingOffloaded
deriving DecidableEq

/-- `aaudio_sharing_mode_t`. -/
inductive SharingMode where
  | exclusive
  | shared
deriving DecidableEq

/-- `aaudio_stream_state_t` (the states used by the verified paths). -/
inductive StreamStateK where
  | opened
  | starting
  | started
  | pausing
  | paused
  | flushing
  | stopping
  | stopped
  | closed
  | disconnected
deriving DecidableEq

/-- Modelled from the spec: the `IsochronousClockModel` (its source is not part of this
subset).  Per spec §4.1 it holds a reference `(position, time)` pair and converts
between positions and times by linear extrapolation; `starting` is true until the
first server timestamp has been accepted; `stop` freezes the model.
`nanosPerFrame` folds the device sample rate and playback speed into one slope. -/
structure ClockModel where
  starting : Bool
  stopped : Bool
  refPosition : Int
  refTimeNanos : Int
  nanosPerFrame : Int
deriving DecidableEq

/-- Spec §4.1: `convertTimeToPosition` is the linear extrapolation inverse. -/
def convertTimeToPosition (cm : ClockModel) (timeNanos : Int) : Int :=
  cm.refPosition + (timeNanos - cm.refTimeNanos) / cm.nanosPerFrame

/-- Spec §4.1: `convertPositionToTime` by linear extrapolation from the reference. -/
def convertPositionToTime (cm : ClockModel) (position : Int) : Int :=
  cm.refTimeNanos + (position - cm.refPosition) * cm.nanosPerFrame

/-- `convertDeltaPositionToTime`: duration of a frame delta. -/
def convertDeltaPositionToTime (cm : ClockModel) (deltaFrames : Int) : Int :=
  deltaFrames * cm.nanosPerFrame

/-- `IsochronousClockModel::stop` (modelled from the spec: freezes the model). -/
def clockStop (cm : ClockModel) : ClockModel :=
  { cm with stopped := true }

/-- The state of one `AudioStreamInternalPlay` stream, together with the fields of its
`AudioEndpoint` (the endpoint source is not part of this subset; per spec §4.2 it is a
pair of monotonic counters over a ring buffer, and `getFullFramesAvailable` is
`write - read`). -/
structure PlayStream where
  serviceHandleValid : Bool
  disconnected : Bool
  dataCallbackSet : Bool
  performanceMode : PerformanceMode
  sharingMode : SharingMode
  state : StreamStateK
  clock : ClockModel
  clockModelInControl : Bool
  endpointReadCounter : Int
  endpointWriteCounter : Int
  framesOffsetFromService : Int
  lastFramesRead : Int
  lastFramesWritten : Int
  freeRunning : Bool
  needCatchUp : Bool
  xRunCount : Nat
  sampleRate : Nat
  deviceSampleRate : Nat
  deviceFramesPerBurst : Nat
  deviceBufferSize : Nat
  deviceBufferCapacity : Nat
  endpointBufferSizeInFrames : Nat
  offloadSafeMarginInFrames : Int
  offloadFlushFromSafeMarginInFrames : Int
  offloadEosPending : Bool
  draining : Bool
deriving DecidableEq

/-- `AudioStreamInternalPlay::getFramesRead` (AudioStreamInternalPlay.cpp:465-474):
the hardware read position is the clock-model estimate at the current time when the
clock model is in control, else the endpoint read counter; the service offset is added
and retrograde motion is clamped through the cached `mLastFramesRead`.
Returns the value together with the updated stream (the cache is mutated). -/
def getFramesRead (s : PlayStream) (nowNanos : Int) : Int × PlayStream :=
  let framesReadHardware :=
    if s.clockModelInControl then convertTimeToPosition s.clock nowNanos
    else s.endpointReadCounter
  let last := max s.lastFramesRead (framesReadHardware + s.framesOffsetFromService)
  (last, { s with lastFramesRead := last })

/-- `AudioStreamInternalPlay::getFramesWritten` (AudioStreamInternalPlay.cpp:476-483). -/
def getFramesWritten (s : PlayStream) : Int × PlayStream :=
  let last := max s.lastFramesWritten (s.endpointWriteCounter + s.framesOffsetFromService)
  (last, { s with lastFramesWritten := last })

/-- `AudioStreamInternalPlay::advanceClientToMatchServerPosition`
(AudioStreamInternalPlay.cpp:206-219): bump the service frame offset by
`write - (read + serverMargin)` so the caller sees no retrograde motion, then force
the endpoint write counter to `read + serverMargin`. -/
def advanceClientToMatchServerPosition (s : PlayStream) (serverMargin : Int) : PlayStream :=
  let readCounter := s.endpointReadCounter + serverMargin
  let writeCounter := s.endpointWriteCounter
  let offset := writeCounter - readCounter
  { s with
      framesOffsetFromService := s.framesOffsetFromService + offset,
      endpointWriteCounter := readCounter }

/-- Modelled from the spec: `mServiceInterface.updateTimestamp` followed by
`processCommands` (the service interface and the command pump are external
collaborators / base-class code not in this subset).  Per spec §4.3 step 3 this forces
a fresh server timestamp; its effect on the stream is that the clock model and the
endpoint read counter now carry fresh values, supplied here as parameters.  The remote
call is modelled as succeeding. -/
def refreshTimestampModel (s : PlayStream) (freshClock : ClockModel)
    (freshReadCounter : Int) : PlayStream :=
  { s with clock := freshClock, endpointReadCounter := freshReadCounter }

/-- Result of `flushFromFrame_l`: the returned code, the value left in the in/out
`position` parameter, and the stream afterwards. -/
structure FlushOutcome where
  result : Int
  positionOut : Int
  streamAfter : PlayStream
deriving DecidableEq

/-- `AudioStreamInternalPlay::flushFromFrame_l` (AudioStreamInternalPlay.cpp:564-614).
`position` is the in/out parameter's value at entry; `nowNanos` the current time;
`freshClock`/`freshReadCounter` the fresh values the forced timestamp refresh
installs (see `refreshTimestampModel`).  `wakeupCallbackThread_l` at the end touches
only the offload flags and is modelled where those flags are verified. -/
def flushFromFrame (s : PlayStream) (accuracy : FlushFromAccuracy) (position : Int)
    (nowNanos : Int) (freshClock : ClockModel) (freshReadCounter : Int) : FlushOutcome :=
  if s.serviceHandleValid = false then
    ⟨AAUDIO_ERROR_DISCONNECTED, position, s⟩
  else if s.disconnected then
    ⟨AAUDIO_ERROR_DISCONNECTED, position, s⟩
  else
    let fwp := getFramesWritten s
    let framesWritten := fwp.1
    let result0 : Int :=
      if framesWritten < position then AAUDIO_ERROR_OUT_OF_RANGE else AAUDIO_OK
    let s2 := refreshTimestampModel fwp.2 freshClock freshReadCounter
    let frp := getFramesRead s2 nowNanos
    let safePosition := frp.1 + s.offloadFlushFromSafeMarginInFrames
    if safePosition > framesWritten then
      ⟨AAUDIO_ERROR_OUT_OF_RANGE, position, frp.2⟩
    else
      let actualPosition := max safePosition position
      let result1 : Int :=
        if accuracy = FlushFromAccuracy.accurate ∧ actualPosition ≠ position then
          AAUDIO_ERROR_OUT_OF_RANGE
        else result0
      if result1 ≠ AAUDIO_OK then
        ⟨result1, actualPosition, frp.2⟩
      else
        ⟨AAUDIO_OK, actualPosition,
          { frp.2 with
              lastFramesWritten := actualPosition,
              endpointWriteCounter := actualPosition - frp.2.framesOffsetFromService }⟩

/-- The reconciliation / bookkeeping events claim P1 ranges over: server-flush or
catch-up reconciliations (`advanceClientToMatchServerPosition` with any margin),
consumer read-counter reports, normal write advances, and the two caller-visible
queries (which mutate their retrograde-clamp caches). -/
inductive ReconcileOp where
  | advance (serverMargin : Int)
  | serverReadReport (n : Int)
  | writeFrames (n : Nat)
  | queryRead (nowNanos : Int)
  | queryWrite

/-- Apply one `ReconcileOp` to the stream. -/
def applyOp (s : PlayStream) : ReconcileOp → PlayStream
  | ReconcileOp.advance m => advanceClientToMatchServerPosition s m
  | ReconcileOp.serverReadReport n => { s with endpointReadCounter := n }
  | ReconcileOp.writeFrames n =>
      { s with endpointWriteCounter := s.endpointWriteCounter + n }
  | ReconcileOp.queryRead now => (getFramesRead s now).2
  | ReconcileOp.queryWrite => (getFramesWritten s).2

/-- Run a sequence of reconciliation events. -/
def runOps (s : PlayStream) : List ReconcileOp → PlayStream
  | [] => s
  | op :: ops => runOps (applyOp s op) ops

/-- `AudioStreamInternalPlay::mayNeedToDrain` (AudioStreamInternalPlay.h:119-123):
offloaded performance mode, clock model actively tracking, and a device buffer larger
than one second of audio at the device sample rate. -/
def mayNeedToDrain (s : PlayStream) : Bool :=
  s.performanceMode = PerformanceMode.powerSavingOffloaded
    ∧ s.clockModelInControl
    ∧ (s.deviceSampleRate : Int) < (s.deviceBufferSize : Int)

/-- Result of `write`: the returned code (frames written or negative error), the
stream afterwards, whether a remote drain request was armed during the call
(`drainStream_l` issued), and whether the error callback was invoked. -/
structure WriteOutcome where
  result : Int
  streamAfter : PlayStream
  drainArmed : Bool
  errorCallbackCalled : Bool
deriving DecidableEq

/-- `AudioStreamInternalPlay::write` (AudioStreamInternalPlay.cpp:226-276).
The blocking `processData` loop is an inherited base-class routine driven by
`processDataNow`; its result (frames consumed, or a negative error) enters as the
parameter `processResult`, exactly the value the source stores in `result` at line
237.  The remote `activateStream_l` / `drainStream_l` calls are modelled as
succeeding; the timed condition-variable wait after arming a drain has no effect on
the modelled state. -/
def write (s : PlayStream) (numFrames : Int) (processResult : Int) : WriteOutcome :=
  let s0 :=
    if mayNeedToDrain s ∧ ¬s.dataCallbackSet ∧ s.draining then
      { s with draining := false }
    else s
  if s0.dataCallbackSet ∧ processResult ≠ numFrames then
    let r :=
      if processResult ≥ 0 then
        if s0.disconnected then AAUDIO_ERROR_DISCONNECTED else AAUDIO_ERROR_TIMEOUT
      else processResult
    ⟨r, s0, false, true⟩
  else if processResult ≥ 0 ∧ mayNeedToDrain s0 then
    let fullFrames := s0.endpointWriteCounter - s0.endpointReadCounter
    if fullFrames > (s0.deviceBufferSize : Int) - s0.offloadSafeMarginInFrames
        ∧ fullFrames > (s0.deviceSampleRate : Int) * 1 + s0.offloadSafeMarginInFrames then
      ⟨processResult, { s0 with draining := true }, true, false⟩
    else
      ⟨processResult, s0, false, false⟩
  else
    ⟨processResult, s0, false, false⟩

def kRampMSec : Nat := 10

def kOffloadSafeMarginMs : Nat := 1000

def kOffloadFlushFromSafeMarginMs : Nat := 100

/-- The slice of the flowgraph configuration that `open` establishes
(`AAudioFlowGraph::configure` itself is an external collaborator per spec §2). -/
structure FlowGraphModel where
  configured : Bool
  sourceSampleRate : Nat
  sinkSampleRate : Nat
  useVolumeRamps : Bool
  rampLengthInFrames : Nat
deriving DecidableEq

/-- Result of `open`: the returned code, the flowgraph configuration, the two safety
margins the open computes, and whether the presentation-end executor was created. -/
structure OpenOutcome where
  result : Int
  flowGraph : FlowGraphModel
  offloadSafeMarginInFrames : Nat
  offloadFlushFromSafeMarginInFrames : Nat
  streamEndExecutorCreated : Bool
deriving DecidableEq

/-- `AudioStreamInternalPlay::open` (AudioStreamInternalPlay.cpp:57-96).
`baseOpenResult` is the result of the inherited `AudioStreamInternal::open` and
`configureResult` that of the external `mFlowGraph.configure` call.  Volume ramps are
enabled for exclusive sharing; when the base open succeeded, the ramp length is set to
`kRampMSec * getSampleRate() / AAUDIO_MILLIS_PER_SECOND` frames (even after a failed
configure, as in the source); the executor is created for offloaded streams with a
presentation-end callback but no data callback; the two offload margins are always
computed.  Returns the value of the source's `result` variable. -/
def openPlay (s : PlayStream) (baseOpenResult : Int) (configureResult : Int)
    (presentationEndCallbackSet : Bool) : OpenOutcome :=
  let useVolumeRamps := s.sharingMode = SharingMode.exclusive
  let fg :=
    if baseOpenResult = AAUDIO_OK then
      { configured := configureResult = AAUDIO_OK
        sourceSampleRate := s.sampleRate
        sinkSampleRate := s.deviceSampleRate
        useVolumeRamps := useVolumeRamps
        rampLengthInFrames := kRampMSec * s.sampleRate / AAUDIO_MILLIS_PER_SECOND }
    else
      { configured := false
        sourceSampleRate := 0
        sinkSampleRate := 0
        useVolumeRamps := false
        rampLengthInFrames := 0 }
  let result := if baseOpenResult = AAUDIO_OK then configureResult else baseOpenResult
  let executor :=
    s.performanceMode = PerformanceMode.powerSavingOffloaded
      ∧ ¬s.dataCallbackSet ∧ presentationEndCallbackSet
  ⟨result, fg,
    s.deviceSampleRate * kOffloadSafeMarginMs / AAUDIO_MILLIS_PER_SECOND
      + s.deviceFramesPerBurst,
    s.deviceSampleRate * kOffloadFlushFromSafeMarginMs / AAUDIO_MILLIS_PER_SECOND
      + s.deviceFramesPerBurst,
    executor⟩

/-- Result of a pause/stop/flush request or of `wakeupCallbackThread_l`: the returned
code, the stream afterwards, and which condition variables were notified during the
call (`mStreamEndCV`, on which the offload end-of-stream drain waits, and
`mCallbackCV`, on which the write-path drain sleep waits). -/
structure ControlOutcome where
  result : Int
  streamAfter : PlayStream
  notifiedStreamEndCV : Bool
  notifiedCallbackCV : Bool
deriving DecidableEq

/-- `AudioStreamInternalPlay::dropPresentationEndCallback_l`
(AudioStreamInternalPlay.cpp:542-545): clear `mOffloadEosPending` and notify
`mStreamEndCV`.  Returns the stream and the notified flag. -/
def dropPresentationEndCallback (s : PlayStream) : PlayStream × Bool :=
  ({ s with offloadEosPending := false }, true)

/-- `AudioStreamInternalPlay::wakeupCallbackThread_l`
(AudioStreamInternalPlay.cpp:554-562): a no-op without a data callback; with one,
clear `mOffloadEosPending` and `mDraining` and notify both condition variables. -/
def wakeupCallbackThread (s : PlayStream) : ControlOutcome :=
  if ¬s.dataCallbackSet then ⟨AAUDIO_OK, s, false, false⟩
  else
    ⟨AAUDIO_OK,
      { s with offloadEosPending := false, draining := false }, true, true⟩

/-- `AudioStreamInternalPlay::requestPause_l` (AudioStreamInternalPlay.cpp:99-119).
`stopCallback_l` is base-class code not in this subset; modelled from the spec: it
halts the callback-driven render loop and is modelled as succeeding, with no effect on
the fields verified here.  On an invalid service handle the request fails with
`INVALID_STATE` before touching anything else; otherwise the clock model is frozen,
the state moves to PAUSING, the pending presentation-end wait is dropped and the
remote pause (modelled as succeeding) is issued. -/
def requestPause (s : PlayStream) : ControlOutcome :=
  if ¬s.serviceHandleValid then ⟨AAUDIO_ERROR_INVALID_STATE, s, false, false⟩
  else
    let s1 := { s with clock := clockStop s.clock, state := StreamStateK.pausing }
    let d := dropPresentationEndCallback s1
    ⟨AAUDIO_OK, d.1, d.2, false⟩

/-- `AudioStreamInternalPlay::requestFlush_l` (AudioStreamInternalPlay.cpp:121-134):
fail with `INVALID_STATE` on an invalid handle; otherwise move to FLUSHING, drop the
pending presentation-end wait, and issue the remote flush (modelled as succeeding). -/
def requestFlush (s : PlayStream) : ControlOutcome :=
  if ¬s.serviceHandleValid then ⟨AAUDIO_ERROR_INVALID_STATE, s, false, false⟩
  else
    let s1 := { s with state := StreamStateK.flushing }
    let d := dropPresentationEndCallback s1
    ⟨AAUDIO_OK, d.1, d.2, false⟩

/-- `AudioStreamInternalPlay::requestStop_l` (AudioStreamInternalPlay.cpp:547-552):
drop the pending presentation-end wait, then delegate to the inherited
`AudioStreamInternal::requestStop_l` (modelled from the spec: issues the remote stop
and moves the state to STOPPING, modelled as succeeding). -/
def requestStop (s : PlayStream) : ControlOutcome :=
  let d := dropPresentationEndCallback s
  ⟨AAUDIO_OK, { d.1 with state := StreamStateK.stopping }, d.2, false⟩

/-- `AudioStreamInternalPlay::writeNowWithConversion`
(AudioStreamInternalPlay.cpp:381-463), abstracted at unit conversion rate: the
adapter/flowgraph chain writes into the ring buffer at most the room the endpoint
reports (spec §4.2: the writable region is the space between the write and read
counters modulo capacity) and advances the endpoint write counter by the frames
written.  Returns the frames consumed from the caller and the updated stream. -/
def writeNowWithConversionModel (s : PlayStream) (numFrames : Int) : Int × PlayStream :=
  let emptyFrames :=
    max 0 ((s.deviceBufferCapacity : Int)
      - (s.endpointWriteCounter - s.endpointReadCounter))
  let framesWritten := min numFrames emptyFrames
  (framesWritten,
    { s with endpointWriteCounter := s.endpointWriteCounter + framesWritten })

/-- Result of `processDataNow`: an early command-pump error, a dereference of a null
wake-time pointer, or frames written plus the wake time stored through the pointer
(`none` when nothing was stored) and the stream afterwards. -/
inductive PdnOutcome where
  | err (code : Int)
  | nullDeref
  | ok (framesWritten : Int) (wakeTimeWritten : Option Int) (streamAfter : PlayStream)
deriving DecidableEq

/-- `AudioStreamInternalPlay::processDataNow` (AudioStreamInternalPlay.cpp:279-378).
`wakePtrNonNull` models whether the `wakeTimePtr` argument is non-null;
`cmdResult` the result of the inherited `processCommands()` pump (base-class code,
external here).  While the clock model is starting, the source stores
`now + 2000 * AAUDIO_NANOS_PER_MICROSECOND` through the pointer without a null check
(line 295) and returns 0; every other store site is guarded by
`wakeTimePtr != nullptr` (line 338). -/
def processDataNow (s : PlayStream) (numFrames : Int) (currentNanoTime : Int)
    (wakePtrNonNull : Bool) (cmdResult : Int) : PdnOutcome :=
  if cmdResult ≠ AAUDIO_OK then PdnOutcome.err cmdResult
  else if s.clock.starting then
    if wakePtrNonNull then
      PdnOutcome.ok 0 (some (currentNanoTime + 2000 * AAUDIO_NANOS_PER_MICROSECOND)) s
    else PdnOutcome.nullDeref
  else
    let s1 :=
      if s.freeRunning then
        { s with endpointReadCounter := convertTimeToPosition s.clock currentNanoTime }
      else s
    let s2 :=
      if s1.needCatchUp then
        { advanceClientToMatchServerPosition s1 (s1.deviceFramesPerBurst : Int) with
            needCatchUp := false }
      else s1
    let s3 :=
      if s2.freeRunning ∧ s2.endpointWriteCounter - s2.endpointReadCounter < 0 then
        { s2 with xRunCount := s2.xRunCount + 1 }
      else s2
    let w := writeNowWithConversionModel s3 numFrames
    let framesWritten := w.1
    let s4 := w.2
    let wake : Option Int :=
      if wakePtrNonNull
          ∧ s4.endpointWriteCounter - s4.endpointReadCounter
              ≥ (s4.deviceBufferSize : Int) then
        some (match s4.state with
          | StreamStateK.opened =>
              if framesWritten ≠ 0 then currentNanoTime
              else currentNanoTime + 1 * AAUDIO_NANOS_PER_MILLISECOND
          | StreamStateK.starting =>
              if framesWritten ≠ 0 then currentNanoTime
              else currentNanoTime + 1 * AAUDIO_NANOS_PER_MILLISECOND
          | StreamStateK.started =>
              let appBufferSize := (s4.deviceBufferSize : Int)
              let endBufferSize :=
                (s4.endpointBufferSizeInFrames : Int) - (s4.deviceFramesPerBurst : Int)
              let bestBufferSize := min appBufferSize endBufferSize
              convertPositionToTime s4.clock (s4.endpointWriteCounter - bestBufferSize)
          | _ => currentNanoTime + 1 * AAUDIO_NANOS_PER_MILLISECOND)
      else none
    PdnOutcome.ok framesWritten wake s4

/-- State of a `FixedBlockWriter` (FixedBlockWriter.cpp / FixedBlockAdapter.h): the
fixed block size `mSize` and the buffered partial block (`mStorage` up to
`mPosition`), modelled as the list of buffered bytes. -/
structure FBWState where
  size : Nat
  storage : List Nat
deriving DecidableEq

/-- `FixedBlockWriter::writeToStorage` (FixedBlockWriter.cpp:27-36): append to the
internal storage at most the room available; returns the new storage and the number
of bytes stored. -/
def writeToStorage (size : Nat) (storage buf : List Nat) : List Nat × Nat :=
  let bytesToStore := min buf.length (size - storage.length)
  (storage ++ buf.take bytesToStore, bytesToStore)

/-- The write-through loop of `FixedBlockWriter::processVariableBlock`
(FixedBlockWriter.cpp:65-73) for a downstream processor that fully consumes each
block: while strictly more than one block of input remains, dispatch one block
directly.  `fuel` bounds the iteration count structurally; each iteration consumes
`size ≥ 1` bytes, so `fuel = buf.length` (as supplied by `writeThrough`) always
suffices.  (For `size = 0` the source loop would never terminate; the adapter is
always constructed with a positive block size, and with the guard below the model
returns immediately in that degenerate case.) -/
def writeThroughAux (size : Nat) : Nat → List Nat → List (List Nat) × List Nat
  | 0, buf => ([], buf)
  | fuel + 1, buf =>
    if 0 < size ∧ size < buf.length then
      (buf.take size :: (writeThroughAux size fuel (buf.drop size)).1,
        (writeThroughAux size fuel (buf.drop size)).2)
    else ([], buf)

/-- The write-through loop with enough fuel for its whole input. -/
def writeThrough (size : Nat) (buf : List Nat) : List (List Nat) × List Nat :=
  writeThroughAux size buf.length buf

/-- `FixedBlockWriter::processVariableBlock` (FixedBlockWriter.cpp:38-82) specialised
to a downstream processor that fully consumes every dispatched block (so
`onProcessFixedBlock` always returns `mSize` and the partial-consumption and stop
branches are never taken): top up a buffered partial block and dispatch it if
complete, write through whole blocks, store the trailing partial block.  Returns the
state afterwards and the sequence of dispatched blocks. -/
def processVariableBlock (s : FBWState) (buf : List Nat) : FBWState × List (List Nat) :=
  let t :=
    if 0 < s.storage.length then
      let w := writeToStorage s.size s.storage buf
      if w.1.length = s.size then (([] : List Nat), buf.drop w.2, [w.1])
      else (w.1, buf.drop w.2, ([] : List (List Nat)))
    else (s.storage, buf, ([] : List (List Nat)))
  let wt := writeThrough s.size t.2.1
  let st := writeToStorage s.size t.1 wt.2
  (⟨s.size, st.1⟩, t.2.2 ++ wt.1)

/-- Feed a sequence of chunks through `processVariableBlock`, one call per chunk,
collecting all dispatched blocks in order. -/
def feedAll (s : FBWState) : List (List Nat) → FBWState × List (List Nat)
  | [] => (s, [])
  | c :: cs =>
      let r := processVariableBlock s c
      let rest := feedAll r.1 cs
      (rest.1, r.2 ++ rest.2)

/-- A clock model that has accepted a server reference (48 kHz, speed 1.0). -/
def baseClock : ClockModel :=
  ⟨false, false, 0, 0, 20833⟩

/-- A clock model still waiting for its first server timestamp. -/
def startingClock : ClockModel :=
  ⟨true, false, 0, 0, 20833⟩

/-- A valid started offload+exclusive 48 kHz stream, frame counters at zero; the two
offload margins carry the values `open` computes for this configuration
(`48000 * 1000 / 1000 + 96` and `48000 * 100 / 1000 + 96`). -/
def baseStream : PlayStream where
  serviceHandleValid := true
  disconnected := false
  dataCallbackSet := false
  performanceMode := PerformanceMode.powerSavingOffloaded
  sharingMode := SharingMode.exclusive
  state := StreamStateK.started
  clock := baseClock
  clockModelInControl := false
  endpointReadCounter := 0
  endpointWriteCounter := 0
  framesOffsetFromService := 0
  lastFramesRead := 0
  lastFramesWritten := 0
  freeRunning := false
  needCatchUp := false
  xRunCount := 0
  sampleRate := 48000
  deviceSampleRate := 48000
  deviceFramesPerBurst := 96
  deviceBufferSize := 96000
  deviceBufferCapacity := 192000
  endpointBufferSizeInFrames := 192000
  offloadSafeMarginInFrames := 48096
  offloadFlushFromSafeMarginInFrames := 4896
  offloadEosPending := false
  draining := false

/-- One second of audio written, none yet read: enough data to rewind into. -/
def flushReadyStream : PlayStream :=
  { baseStream with endpointWriteCounter := 48000 }

/-- Only 100 frames written: less than the flush safety margin. -/
def shortBufferStream : PlayStream :=
  { baseStream with endpointWriteCounter := 100 }

/-- A tiny offload configuration at 10 Hz device rate with burst 2, so the safe
margin `open` computes is `10 * 1000 / 1000 + 2 = 12` frames; the buffer holds 11
frames of data. -/
def drainEdgeStream : PlayStream :=
  { baseStream with
      sampleRate := 10
      deviceSampleRate := 10
      deviceFramesPerBurst := 2
      deviceBufferSize := 11
      deviceBufferCapacity := 100
      endpointBufferSizeInFrames := 100
      offloadSafeMarginInFrames := 12
      offloadFlushFromSafeMarginInFrames := 3
      clockModelInControl := true
      endpointWriteCounter := 11 }

/-- The same configuration with 30 frames of data buffered. -/
def drainFullStream : PlayStream :=
  { drainEdgeStream with endpointWriteCounter := 30 }

/-- Application rate 48000 Hz converted to a 44100 Hz device. -/
def rateMismatchStream : PlayStream :=
  { baseStream with deviceSampleRate := 44100 }

/-- A callback-driven stream with a drain pending and end-of-stream marked. -/
def pendingDrainStream : PlayStream :=
  { baseStream with
      draining := true
      offloadEosPending := true
      dataCallbackSet := true }

/-- A callback-driven stream whose remote side has disconnected. -/
def callbackDisconnectedStream : PlayStream :=
  { baseStream with dataCallbackSet := true, disconnected := true }

/-- A stream whose clock model has not yet accepted a server timestamp. -/
def startingStream : PlayStream :=
  { baseStream with clock := startingClock }

theorem lastFramesRead_le_applyOp (s : PlayStream) (op : ReconcileOp) :
    s.lastFramesRead ≤ (applyOp s op).lastFramesRead := by
  cases op <;>
    simp only [applyOp, advanceClientToMatchServerPosition, getFramesRead,
      getFramesWritten] <;> omega

theorem lastFramesWritten_le_applyOp (s : PlayStream) (op : ReconcileOp) :
    s.lastFramesWritten ≤ (applyOp s op).lastFramesWritten := by
  cases op <;>
    simp only [applyOp, advanceClientToMatchServerPosition, getFramesRead,
      getFramesWritten] <;> omega

theorem lastFramesRead_le_runOps (s : PlayStream) (ops : List ReconcileOp) :
    s.lastFramesRead ≤ (runOps s ops).lastFramesRead := by
  induction ops generalizing s with
  | nil => exact le_refl _
  | cons op ops ih =>
      exact le_trans (lastFramesRead_le_applyOp s op) (ih (applyOp s op))

theorem lastFramesWritten_le_runOps (s : PlayStream) (ops : List ReconcileOp) :
    s.lastFramesWritten ≤ (runOps s ops).lastFramesWritten := by
  induction ops generalizing s with
  | nil => exact le_refl _
  | cons op ops ih =>
      exact le_trans (lastFramesWritten_le_applyOp s op) (ih (applyOp s op))

/-- C2: across any sequence of server-flush / catch-up reconciliations (with any
server margin), consumer read reports, write advances and queries, the values the
caller obtains from `getFramesRead()` and `getFramesWritten()` never decrease; each
reconciliation preserves `endpoint.write + framesOffset` exactly — the accumulated
offset compensates the write-counter jump backward to `endpoint.read + margin` — so
the logical written position observed through `getFramesWritten` is unchanged by it. -/
theorem framesReadWrittenMonotone (s : PlayStream) (ops : List ReconcileOp)
    (now1 now2 serverMargin : Int) :
    (getFramesRead s now1).1
        ≤ (getFramesRead (runOps (getFramesRead s now1).2 ops) now2).1
    ∧ (getFramesWritten s).1
        ≤ (getFramesWritten (runOps (getFramesWritten s).2 ops)).1
    ∧ (advanceClientToMatchServerPosition s serverMargin).endpointWriteCounter
          + (advanceClientToMatchServerPosition s serverMargin).framesOffsetFromService
        = s.endpointWriteCounter + s.framesOffsetFromService
    ∧ (advanceClientToMatchServerPosition s serverMargin).endpointWriteCounter
        = s.endpointReadCounter + serverMargin
    ∧ (getFramesWritten (advanceClientToMatchServerPosition s serverMargin)).1
        = (getFramesWritten s).1 := by
  refine ⟨?_, ?_, ?_, ?_, ?_⟩
  · have h1 : (getFramesRead s now1).1 = ((getFramesRead s now1).2).lastFramesRead := rfl
    have h2 := lastFramesRead_le_runOps ((getFramesRead s now1).2) ops
    have h3 : (runOps ((getFramesRead s now1).2) ops).lastFramesRead
        ≤ (getFramesRead (runOps ((getFramesRead s now1).2) ops) now2).1 := by
      simp only [getFramesRead]
      omega
    omega
  · have h1 : (getFramesWritten s).1 = ((getFramesWritten s).2).lastFramesWritten := rfl
    have h2 := lastFramesWritten_le_runOps ((getFramesWritten s).2) ops
    have h3 : (runOps ((getFramesWritten s).2) ops).lastFramesWritten
        ≤ (getFramesWritten (runOps ((getFramesWritten s).2) ops)).1 := by
      simp only [getFramesWritten]
      omega
    omega
  · simp only [advanceClientToMatchServerPosition]
    omega
  · simp only [advanceClientToMatchServerPosition]
  · simp only [getFramesWritten, advanceClientToMatchServerPosition]
    omega

/-- C9: when a data callback is set and the blocking write completes with a
non-negative frame count smaller than requested, `write` returns `DISCONNECTED` if
the stream is disconnected (checked first, taking priority) and `TIMEOUT` otherwise,
and the error callback is invoked before `write` returns. -/
theorem writeShortCallbackError (s : PlayStream) (numFrames processResult : Int)
    (hcb : s.dataCallbackSet = true) (h0 : 0 ≤ processResult)
    (hlt : processResult < numFrames) :
    (write s numFrames processResult).result
        = (if s.disconnected then AAUDIO_ERROR_DISCONNECTED else AAUDIO_ERROR_TIMEOUT)
    ∧ (write s numFrames processResult).errorCallbackCalled = true := by
  have hne : processResult ≠ numFrames := by omega
  simp only [write, hcb]
  simp [hcb, hne, h0]

theorem writeShortCallbackError_witness :
    callbackDisconnectedStream.dataCallbackSet = true ∧ (0 : Int) ≤ 50 ∧ (50 : Int) < 96
    ∧ (write callbackDisconnectedStream 96 50).result = AAUDIO_ERROR_DISCONNECTED
    ∧ (write callbackDisconnectedStream 96 50).errorCallbackCalled = true := by
  refine ⟨by decide, by decide, by decide, ?_⟩
  have h := writeShortCallbackError callbackDisconnectedStream 96 50
    (by decide) (by decide) (by decide)
  exact ⟨by rw [h.1]; decide, h.2⟩

/-- C6 counterexample: a stream where `mayNeedToDrain()` holds, whose safe margin is
exactly the value `open` computes (`rate * 1000 / 1000 + burst = 12`), and whose
occupancy of 11 frames exceeds both `deviceBufferSize - offloadSafeMargin = -1` and
one second of audio (10 frames) — so the claim says a successful non-callback write
must arm a drain and set the draining flag — yet `write` arms nothing and leaves the
flag false, because the source requires occupancy to exceed one second PLUS the safe
margin (`10 * 1 + 12 = 22` frames). -/
theorem writeDrainOneSecondCounterexample :
    mayNeedToDrain drainEdgeStream = true
    ∧ drainEdgeStream.dataCallbackSet = false
    ∧ drainEdgeStream.draining = false
    ∧ drainEdgeStream.offloadSafeMarginInFrames
        = ((drainEdgeStream.deviceSampleRate * kOffloadSafeMarginMs
            / AAUDIO_MILLIS_PER_SECOND + drainEdgeStream.deviceFramesPerBurst : Nat) : Int)
    ∧ drainEdgeStream.endpointWriteCounter - drainEdgeStream.endpointReadCounter
        > (drainEdgeStream.deviceBufferSize : Int) - drainEdgeStream.offloadSafeMarginInFrames
    ∧ drainEdgeStream.endpointWriteCounter - drainEdgeStream.endpointReadCounter
        > (drainEdgeStream.deviceSampleRate : Int)
    ∧ (write drainEdgeStream 5 5).result = 5
    ∧ (write drainEdgeStream 5 5).drainArmed = false
    ∧ (write drainEdgeStream 5 5).streamAfter.draining = false := by
  decide

/-- C6 (amended): on a stream where `mayNeedToDrain()` holds and the draining flag is
clear, after `write` completes a successful blocking write (and the callback
short-write path is not taken) it arms a remote drain request and sets the draining
flag exactly when the endpoint occupancy exceeds
`deviceBufferSize - offloadSafeMargin` and also exceeds one second of audio at the
device sample rate PLUS the safe margin; otherwise no drain is armed and the
draining flag stays false. -/
theorem writeDrainArming (s : PlayStream) (numFrames processResult : Int)
    (hd : mayNeedToDrain s = true) (hr : 0 ≤ processResult)
    (hcb : s.dataCallbackSet = false ∨ processResult = numFrames)
    (hdr : s.draining = false) :
    ((write s numFrames processResult).drainArmed = true
      ↔ (s.endpointWriteCounter - s.endpointReadCounter
            > (s.deviceBufferSize : Int) - s.offloadSafeMarginInFrames
          ∧ s.endpointWriteCounter - s.endpointReadCounter
            > (s.deviceSampleRate : Int) + s.offloadSafeMarginInFrames))
    ∧ (write s numFrames processResult).streamAfter.draining
        = (write s numFrames processResult).drainArmed
    ∧ (write s numFrames processResult).result = processResult := by
  simp only [write]
  split_ifs <;> simp_all

theorem writeDrainArming_witness :
    mayNeedToDrain drainFullStream = true ∧ (0 : Int) ≤ 5
    ∧ (drainFullStream.dataCallbackSet = false ∨ (5 : Int) = 5)
    ∧ drainFullStream.draining = false
    ∧ (write drainFullStream 5 5).drainArmed = true
    ∧ (write drainFullStream 5 5).streamAfter.draining = true := by
  have h := writeDrainArming drainFullStream 5 5 (by decide) (by decide)
    (Or.inl (by decide)) (by decide)
  refine ⟨by decide, by decide, Or.inl (by decide), by decide, ?_, ?_⟩
  · exact h.1.mpr (by decide)
  · rw [h.2.1]
    exact h.1.mpr (by decide)

/-- C7 counterexample: a callback-driven stream with a drain pending
(`mDraining = true`) and end-of-stream marked; `requestFlush_l` succeeds and clears
the pending end-of-stream flag, but it leaves the draining flag set and does not
notify `mCallbackCV` — the condition variable the write-path drain sleep blocks on —
contradicting the claim that flushing clears the draining flag and notifies the
condition variable any drain-waiting thread is blocked on. -/
theorem requestFlushDrainingCounterexample :
    pendingDrainStream.draining = true
    ∧ (requestFlush pendingDrainStream).result = AAUDIO_OK
    ∧ (requestFlush pendingDrainStream).streamAfter.offloadEosPending = false
    ∧ (requestFlush pendingDrainStream).streamAfter.draining = true
    ∧ (requestFlush pendingDrainStream).notifiedCallbackCV = false := by
  decide

/-- C7 (amended): requesting pause, stop, or flush clears the pending end-of-stream
flag and notifies `mStreamEndCV`, the condition variable the offload end-of-stream
drain wait blocks on, so that waiter is unblocked without its timed wait having to
expire and no stale background task later fires a presentation-end callback.  The
separate write-path draining flag is not cleared by the flush request itself; it is
cleared (together with a notify of both condition variables) by
`wakeupCallbackThread_l` on a callback-driven stream, and otherwise by the
activate path of the next `write`. -/
theorem controlRequestsDropEosWait (s : PlayStream)
    (h : s.serviceHandleValid = true) :
    ((requestPause s).streamAfter.offloadEosPending = false
      ∧ (requestPause s).notifiedStreamEndCV = true)
    ∧ ((requestFlush s).streamAfter.offloadEosPending = false
      ∧ (requestFlush s).notifiedStreamEndCV = true)
    ∧ ((requestStop s).streamAfter.offloadEosPending = false
      ∧ (requestStop s).notifiedStreamEndCV = true)
    ∧ (requestFlush s).streamAfter.draining = s.draining
    ∧ (s.dataCallbackSet = true →
        (wakeupCallbackThread s).streamAfter.draining = false
        ∧ (wakeupCallbackThread s).streamAfter.offloadEosPending = false
        ∧ (wakeupCallbackThread s).notifiedStreamEndCV = true
        ∧ (wakeupCallbackThread s).notifiedCallbackCV = true) := by
  refine ⟨?_, ?_, ?_, ?_, fun hcb => ?_⟩ <;>
    simp [requestPause, requestFlush, requestStop, wakeupCallbackThread,
      dropPresentationEndCallback, h, *]

theorem controlRequestsDropEosWait_witness :
    pendingDrainStream.serviceHandleValid = true
    ∧ (requestPause pendingDrainStream).streamAfter.offloadEosPending = false
    ∧ (requestFlush pendingDrainStream).notifiedStreamEndCV = true
    ∧ (wakeupCallbackThread pendingDrainStream).streamAfter.draining = false := by
  have h := controlRequestsDropEosWait pendingDrainStream (by decide)
  exact ⟨by decide, h.1.1, h.2.1.2, (h.2.2.2.2 (by decide)).1⟩

/-- C8 counterexample: a successful open of a stream converting an application rate
of 48000 Hz to a device rate of 44100 Hz configures a volume-ramp length of
`10 * 48000 / 1000 = 480` frames, not the `10 * 44100 / 1000 = 441` frames that
`10 * deviceSampleRate / 1000` would give: the source computes the ramp from the
application sample rate (`getSampleRate()`), not the device sample rate. -/
theorem openRampCounterexample :
    (openPlay rateMismatchStream AAUDIO_OK AAUDIO_OK false).result = AAUDIO_OK
    ∧ (openPlay rateMismatchStream AAUDIO_OK AAUDIO_OK false).flowGraph.rampLengthInFrames
        = 480
    ∧ kRampMSec * rateMismatchStream.deviceSampleRate / AAUDIO_MILLIS_PER_SECOND = 441
    ∧ (openPlay rateMismatchStream AAUDIO_OK AAUDIO_OK false).flowGraph.rampLengthInFrames
        ≠ kRampMSec * rateMismatchStream.deviceSampleRate / AAUDIO_MILLIS_PER_SECOND := by
  decide

/-- C8 (amended): for every successful open of a playback stream, the volume-ramp
length configured into the signal-processing graph equals 10 milliseconds of frames
computed from the APPLICATION sample rate (`rampFrames = 10 * sampleRate / 1000`). -/
theorem openRampFromAppRate (s : PlayStream) (baseOpenResult configureResult : Int)
    (presentationEndCallbackSet : Bool)
    (h : (openPlay s baseOpenResult configureResult presentationEndCallbackSet).result
        = AAUDIO_OK) :
    (openPlay s baseOpenResult configureResult presentationEndCallbackSet
      ).flowGraph.rampLengthInFrames
        = kRampMSec * s.sampleRate / AAUDIO_MILLIS_PER_SECOND := by
  by_cases hb : baseOpenResult = AAUDIO_OK
  · simp [openPlay, hb]
  · simp [openPlay, hb] at h

theorem openRampFromAppRate_witness :
    (openPlay baseStream AAUDIO_OK AAUDIO_OK false).result = AAUDIO_OK
    ∧ (openPlay baseStream AAUDIO_OK AAUDIO_OK false).flowGraph.rampLengthInFrames
        = kRampMSec * baseStream.sampleRate / AAUDIO_MILLIS_PER_SECOND :=
  ⟨by decide, openRampFromAppRate baseStream AAUDIO_OK AAUDIO_OK false (by decide)⟩

/-- C10: `processDataNow` stores `now + 2 ms` through the wake-time pointer
unconditionally while the clock model is still starting (and returns 0 frames
written), whereas every other wake-time store first checks the pointer for null;
under the precondition that the pointer is non-null whenever the clock model is
starting, the null-dereference branch of the embedding is unreachable. -/
theorem processDataNowStartingWake (s : PlayStream) (numFrames currentNanoTime : Int)
    (wakePtrNonNull : Bool) (cmdResult : Int)
    (hp : s.clock.starting = true → wakePtrNonNull = true) :
    processDataNow s numFrames currentNanoTime wakePtrNonNull cmdResult
        ≠ PdnOutcome.nullDeref
    ∧ (cmdResult = AAUDIO_OK → s.clock.starting = true →
        processDataNow s numFrames currentNanoTime wakePtrNonNull cmdResult
          = PdnOutcome.ok 0
              (some (currentNanoTime + 2 * AAUDIO_NANOS_PER_MILLISECOND)) s) := by
  constructor
  · intro hEq
    simp only [processDataNow] at hEq
    by_cases h1 : cmdResult ≠ AAUDIO_OK
    · rw [if_pos h1] at hEq
      exact PdnOutcome.noConfusion hEq
    · rw [if_neg h1] at hEq
      by_cases h2 : s.clock.starting = true
      · rw [if_pos h2, if_pos (hp h2)] at hEq
        exact PdnOutcome.noConfusion hEq
      · rw [if_neg h2] at hEq
        exact PdnOutcome.noConfusion hEq
  · intro hc hst
    have h1 : ¬cmdResult ≠ AAUDIO_OK := by simp [hc]
    simp only [processDataNow]
    rw [if_neg h1, if_pos hst, if_pos (hp hst)]
    norm_num [AAUDIO_NANOS_PER_MICROSECOND, AAUDIO_NANOS_PER_MILLISECOND]

theorem processDataNowStartingWake_witness :
    (startingStream.clock.starting = true → (true : Bool) = true)
    ∧ processDataNow startingStream 96 1000 true AAUDIO_OK
        = PdnOutcome.ok 0 (some (1000 + 2 * AAUDIO_NANOS_PER_MILLISECOND))
            startingStream :=
  ⟨fun _ => rfl,
    (processDataNowStartingWake startingStream 96 1000 true AAUDIO_OK
      (fun _ => rfl)).2 (by decide) (by decide)⟩

/-- C1: whenever `flushFromFrame` returns `AAUDIO_OK`, the achieved position written
to the output parameter equals `max(getFramesRead() + flushSafetyMarginFrames,
requestedPosition)` evaluated after the forced timestamp refresh — hence is never
below `getFramesRead() + flushSafetyMarginFrames` at the time of the call — and
immediately after the call `getFramesWritten()` equals that achieved position and
the endpoint write counter equals the achieved position minus the frames offset. -/
theorem flushFromFrameSuccess (s : PlayStream) (accuracy : FlushFromAccuracy)
    (position nowNanos freshReadCounter : Int) (freshClock : ClockModel)
    (hok : (flushFromFrame s accuracy position nowNanos freshClock
        freshReadCounter).result = AAUDIO_OK) :
    (flushFromFrame s accuracy position nowNanos freshClock freshReadCounter).positionOut
        = max ((getFramesRead (refreshTimestampModel (getFramesWritten s).2 freshClock
                freshReadCounter) nowNanos).1 + s.offloadFlushFromSafeMarginInFrames)
            position
    ∧ (getFramesRead (refreshTimestampModel (getFramesWritten s).2 freshClock
            freshReadCounter) nowNanos).1 + s.offloadFlushFromSafeMarginInFrames
        ≤ (flushFromFrame s accuracy position nowNanos freshClock
            freshReadCounter).positionOut
    ∧ (getFramesWritten (flushFromFrame s accuracy position nowNanos freshClock
            freshReadCounter).streamAfter).1
        = (flushFromFrame s accuracy position nowNanos freshClock
            freshReadCounter).positionOut
    ∧ (flushFromFrame s accuracy position nowNanos freshClock
            freshReadCounter).streamAfter.endpointWriteCounter
        = (flushFromFrame s accuracy position nowNanos freshClock
              freshReadCounter).positionOut
          - (flushFromFrame s accuracy position nowNanos freshClock
              freshReadCounter).streamAfter.framesOffsetFromService := by
  simp only [flushFromFrame] at hok ⊢
  split_ifs at hok ⊢
  all_goals try (exfalso; revert hok; norm_num [AAUDIO_ERROR_DISCONNECTED,
    AAUDIO_ERROR_OUT_OF_RANGE, AAUDIO_OK]; done)
  all_goals refine ⟨rfl, le_max_left _ _, ?_, ?_⟩
  all_goals simp [getFramesWritten]
  all_goals omega

theorem flushFromFrameSuccess_witness :
    (flushFromFrame flushReadyStream FlushFromAccuracy.undefined 24000 0 baseClock
        100).result = AAUDIO_OK
    ∧ (flushFromFrame flushReadyStream FlushFromAccuracy.undefined 24000 0 baseClock
          100).positionOut
        = max ((getFramesRead (refreshTimestampModel (getFramesWritten
                flushReadyStream).2 baseClock 100) 0).1
              + flushReadyStream.offloadFlushFromSafeMarginInFrames) 24000
    ∧ (getFramesWritten (flushFromFrame flushReadyStream FlushFromAccuracy.undefined
          24000 0 baseClock 100).streamAfter).1
        = (flushFromFrame flushReadyStream FlushFromAccuracy.undefined 24000 0
            baseClock 100).positionOut :=
  ⟨by decide,
    (flushFromFrameSuccess flushReadyStream FlushFromAccuracy.undefined 24000 0 100
      baseClock (by decide)).1,
    (flushFromFrameSuccess flushReadyStream FlushFromAccuracy.undefined 24000 0 100
      baseClock (by decide)).2.2.1⟩

/-- C3: a `flushFromFrame` call whose requested position is strictly greater than
`getFramesWritten()` fails with `OUT_OF_RANGE` (given a valid connected stream) and
leaves the stream state unchanged: the logical written-frames counter (the value
`getFramesWritten()` returns), the endpoint write counter, and the frames offset are
identical before and after the call. -/
theorem flushFromFrameRejectsUnwritten (s : PlayStream) (accuracy : FlushFromAccuracy)
    (position nowNanos freshReadCounter : Int) (freshClock : ClockModel)
    (hv : s.serviceHandleValid = true) (hd : s.disconnected = false)
    (hgt : (getFramesWritten s).1 < position) :
    (flushFromFrame s accuracy position nowNanos freshClock freshReadCounter).result
        = AAUDIO_ERROR_OUT_OF_RANGE
    ∧ (flushFromFrame s accuracy position nowNanos freshClock
        freshReadCounter).streamAfter.endpointWriteCounter = s.endpointWriteCounter
    ∧ (flushFromFrame s accuracy position nowNanos freshClock
        freshReadCounter).streamAfter.framesOffsetFromService
          = s.framesOffsetFromService
    ∧ (getFramesWritten (flushFromFrame s accuracy position nowNanos freshClock
          freshReadCounter).streamAfter).1 = (getFramesWritten s).1 := by
  have h1 : ¬(s.serviceHandleValid = false) := by simp [hv]
  have h2 : ¬(s.disconnected = true) := by simp [hd]
  have h4 : AAUDIO_ERROR_OUT_OF_RANGE ≠ AAUDIO_OK := by
    norm_num [AAUDIO_ERROR_OUT_OF_RANGE, AAUDIO_OK]
  simp only [flushFromFrame]
  rw [if_neg h1, if_neg h2, if_pos hgt]
  simp only [ite_self]
  rw [if_pos h4]
  split_ifs with h3
  all_goals refine ⟨rfl, ?_, ?_, ?_⟩
  all_goals simp [getFramesRead, getFramesWritten, refreshTimestampModel]

theorem flushFromFrameRejectsUnwritten_witness :
    flushReadyStream.serviceHandleValid = true
    ∧ flushReadyStream.disconnected = false
    ∧ (getFramesWritten flushReadyStream).1 < 60000
    ∧ (flushFromFrame flushReadyStream FlushFromAccuracy.undefined 60000 0 baseClock
        100).result = AAUDIO_ERROR_OUT_OF_RANGE
    ∧ (flushFromFrame flushReadyStream FlushFromAccuracy.undefined 60000 0 baseClock
        100).streamAfter.endpointWriteCounter = flushReadyStream.endpointWriteCounter :=
  ⟨rfl, rfl, by decide,
    (flushFromFrameRejectsUnwritten flushReadyStream FlushFromAccuracy.undefined
      60000 0 100 baseClock rfl rfl (by decide)).1,
    (flushFromFrameRejectsUnwritten flushReadyStream FlushFromAccuracy.undefined
      60000 0 100 baseClock rfl rfl (by decide)).2.1⟩

/-- C4 counterexample: with only 100 frames written and a safe position of
`framesRead + margin = 4896 > 100`, `flushFromFrame` fails with `OUT_OF_RANGE`
without writing the output parameter: the parameter keeps its input value 0 rather
than carrying the achievable position `max(safePosition, requestedPosition) = 4896`
the claim says is always reported — the not-enough-data branch returns before the
output parameter is assigned. -/
theorem flushFromFramePositionCounterexample :
    (flushFromFrame shortBufferStream FlushFromAccuracy.undefined 0 0 baseClock
        0).result = AAUDIO_ERROR_OUT_OF_RANGE
    ∧ (flushFromFrame shortBufferStream FlushFromAccuracy.undefined 0 0 baseClock
        0).positionOut = 0
    ∧ (getFramesRead (refreshTimestampModel (getFramesWritten shortBufferStream).2
          baseClock 0) 0).1 + shortBufferStream.offloadFlushFromSafeMarginInFrames
        = 4896
    ∧ (flushFromFrame shortBufferStream FlushFromAccuracy.undefined 0 0 baseClock
          0).positionOut
        ≠ max ((getFramesRead (refreshTimestampModel (getFramesWritten
              shortBufferStream).2 baseClock 0) 0).1
            + shortBufferStream.offloadFlushFromSafeMarginInFrames) 0 := by
  decide

/-- C4 (amended): once `flushFromFrame` passes its early rejections — valid handle,
not disconnected, timestamp refresh succeeded, and
`safePosition = framesRead + margin ≤ framesWritten` — the output parameter is always
written with the achievable position `max(safePosition, requestedPosition)`, on
failure as well as on success; in particular a call with ACCURATE accuracy whose
requested position differs from that achievable position fails with `OUT_OF_RANGE`
while the output parameter carries the achievable position.  (In the earlier failure
branches — invalid handle, disconnected, refresh failure, or
`safePosition > framesWritten` — the output parameter is left untouched.) -/
theorem flushFromFramePositionReporting (s : PlayStream) (accuracy : FlushFromAccuracy)
    (position nowNanos freshReadCounter : Int) (freshClock : ClockModel)
    (hv : s.serviceHandleValid = true) (hd : s.disconnected = false)
    (hsafe : (getFramesRead (refreshTimestampModel (getFramesWritten s).2 freshClock
          freshReadCounter) nowNanos).1 + s.offloadFlushFromSafeMarginInFrames
        ≤ (getFramesWritten s).1) :
    (flushFromFrame s accuracy position nowNanos freshClock freshReadCounter).positionOut
        = max ((getFramesRead (refreshTimestampModel (getFramesWritten s).2 freshClock
              freshReadCounter) nowNanos).1 + s.offloadFlushFromSafeMarginInFrames)
            position
    ∧ (accuracy = FlushFromAccuracy.accurate →
        max ((getFramesRead (refreshTimestampModel (getFramesWritten s).2 freshClock
              freshReadCounter) nowNanos).1 + s.offloadFlushFromSafeMarginInFrames)
            position ≠ position →
        (flushFromFrame s accuracy position nowNanos freshClock
            freshReadCounter).result = AAUDIO_ERROR_OUT_OF_RANGE) := by
  have h1 : ¬(s.serviceHandleValid = false) := by simp [hv]
  have h2 : ¬(s.disconnected = true) := by simp [hd]
  have h4 : AAUDIO_ERROR_OUT_OF_RANGE ≠ AAUDIO_OK := by
    norm_num [AAUDIO_ERROR_OUT_OF_RANGE, AAUDIO_OK]
  have h3 : ¬((getFramesWritten s).1
      < (getFramesRead (refreshTimestampModel (getFramesWritten s).2 freshClock
          freshReadCounter) nowNanos).1 + s.offloadFlushFromSafeMarginInFrames) :=
    not_lt.mpr hsafe
  simp only [flushFromFrame]
  rw [if_neg h1, if_neg h2, if_neg h3]
  constructor
  · split_ifs <;> rfl
  · intro ha hne
    rw [if_pos (And.intro ha hne), if_pos h4]

theorem flushFromFramePositionReporting_witness :
    flushReadyStream.serviceHandleValid = true
    ∧ flushReadyStream.disconnected = false
    ∧ (getFramesRead (refreshTimestampModel (getFramesWritten flushReadyStream).2
          baseClock 100) 0).1 + flushReadyStream.offloadFlushFromSafeMarginInFrames
        ≤ (getFramesWritten flushReadyStream).1
    ∧ (flushFromFrame flushReadyStream FlushFromAccuracy.accurate 5 0 baseClock
        100).positionOut = 4996
    ∧ (flushFromFrame flushReadyStream FlushFromAccuracy.accurate 5 0 baseClock
        100).result = AAUDIO_ERROR_OUT_OF_RANGE := by
  have h := flushFromFramePositionReporting flushReadyStream FlushFromAccuracy.accurate
    5 0 100 baseClock rfl rfl (by decide)
  refine ⟨rfl, rfl, by decide, ?_, h.2 rfl (by decide)⟩
  rw [h.1]
  decide

theorem writeThroughAux_spec (size : Nat) (hs : 0 < size) :
    ∀ (fuel : Nat) (buf : List Nat), buf.length ≤ fuel →
      (writeThroughAux size fuel buf).1.flatten ++ (writeThroughAux size fuel buf).2
          = buf
      ∧ (∀ b ∈ (writeThroughAux size fuel buf).1, b.length = size)
      ∧ (writeThroughAux size fuel buf).2.length ≤ size := by
  intro fuel
  induction fuel with
  | zero =>
      intro buf hlen
      simp only [writeThroughAux]
      refine ⟨by simp, by simp, by omega⟩
  | succ fuel ih =>
      intro buf hlen
      simp only [writeThroughAux]
      by_cases hc : 0 < size ∧ size < buf.length
      · rw [if_pos hc]
        have hdrop : (buf.drop size).length ≤ fuel := by
          simp only [List.length_drop]
          omega
        obtain ⟨e1, e2, e3⟩ := ih (buf.drop size) hdrop
        refine ⟨?_, ?_, e3⟩
        · simp only [List.flatten_cons, List.append_assoc, e1, List.take_append_drop]
        · intro b hb
          rcases List.mem_cons.mp hb with hb | hb
          · subst hb
            rw [List.length_take]
            omega
          · exact e2 b hb
      · rw [if_neg hc]
        push_neg at hc
        exact ⟨by simp, by simp, hc hs⟩

theorem writeThrough_spec (size : Nat) (hs : 0 < size) (buf : List Nat) :
    (writeThrough size buf).1.flatten ++ (writeThrough size buf).2 = buf
    ∧ (∀ b ∈ (writeThrough size buf).1, b.length = size)
    ∧ (writeThrough size buf).2.length ≤ size :=
  writeThroughAux_spec size hs buf.length buf (le_refl _)

theorem processVariableBlock_spec (s : FBWState) (buf : List Nat) (hs : 0 < s.size)
    (hst : s.storage.length ≤ s.size) :
    (processVariableBlock s buf).2.flatten ++ (processVariableBlock s buf).1.storage
        = s.storage ++ buf
    ∧ (∀ b ∈ (processVariableBlock s buf).2, b.length = s.size)
    ∧ (processVariableBlock s buf).1.storage.length ≤ s.size
    ∧ (processVariableBlock s buf).1.size = s.size := by
  by_cases h0 : 0 < s.storage.length
  · by_cases hfull :
        (s.storage ++ buf.take (min buf.length (s.size - s.storage.length))).length
          = s.size
    · obtain ⟨e1, e2, e3⟩ := writeThrough_spec s.size hs
        (buf.drop (min buf.length (s.size - s.storage.length)))
      simp only [processVariableBlock, writeToStorage, if_pos h0, if_pos hfull]
      have htake :
          (writeThrough s.size
              (buf.drop (min buf.length (s.size - s.storage.length)))).2.take
            (min (writeThrough s.size
              (buf.drop (min buf.length (s.size - s.storage.length)))).2.length
              (s.size - ([] : List Nat).length))
          = (writeThrough s.size
              (buf.drop (min buf.length (s.size - s.storage.length)))).2 := by
        apply List.take_of_length_le
        simp
        omega
      refine ⟨?_, ?_, ?_, trivial⟩
      · simp only [List.singleton_append, List.nil_append, htake, List.flatten_cons,
          List.append_assoc, e1, List.take_append_drop]
      · intro b hb
        rcases List.mem_cons.mp hb with hb | hb
        · subst hb
          exact hfull
        · exact e2 b hb
      · simp only [List.nil_append, htake]
        exact e3
    · have hn : min buf.length (s.size - s.storage.length) = buf.length := by
        by_contra hne
        apply hfull
        rw [List.length_append, List.length_take]
        omega
      rw [hn, List.take_length] at hfull
      have hwt : writeThrough s.size ([] : List Nat) = ([], []) := rfl
      simp only [processVariableBlock, writeToStorage, hn, List.drop_length,
        List.take_length, if_pos h0, if_neg hfull, hwt, List.take_nil,
        List.append_nil, List.nil_append]
      refine ⟨by simp, by simp, ?_, trivial⟩
      rw [List.length_append]
      omega
  · have hemp : s.storage = [] := List.length_eq_zero.mp (by omega)
    obtain ⟨e1, e2, e3⟩ := writeThrough_spec s.size hs buf
    simp only [processVariableBlock, writeToStorage, if_neg h0]
    rw [hemp]
    have htake : (writeThrough s.size buf).2.take
        (min (writeThrough s.size buf).2.length (s.size - ([] : List Nat).length))
        = (writeThrough s.size buf).2 := by
      apply List.take_of_length_le
      simp
      omega
    refine ⟨?_, ?_, ?_, trivial⟩
    · simp only [List.nil_append, htake]
      exact e1
    · intro b hb
      simp only [List.nil_append] at hb
      exact e2 b hb
    · simp only [List.nil_append, htake]
      exact e3

theorem feedAll_spec (size : Nat) (hs : 0 < size) (cs : List (List Nat)) :
    ∀ st : List Nat, st.length ≤ size →
      (feedAll ⟨size, st⟩ cs).2.flatten ++ (feedAll ⟨size, st⟩ cs).1.storage
          = st ++ cs.flatten
      ∧ (∀ b ∈ (feedAll ⟨size, st⟩ cs).2, b.length = size)
      ∧ (feedAll ⟨size, st⟩ cs).1.storage.length ≤ size
      ∧ (feedAll ⟨size, st⟩ cs).1.size = size := by
  induction cs with
  | nil =>
      intro st hlen
      exact ⟨by simp [feedAll], by simp [feedAll], hlen, rfl⟩
  | cons c cs ih =>
      intro st hlen
      obtain ⟨p1, p2, p3, p4⟩ := processVariableBlock_spec ⟨size, st⟩ c hs hlen
      rcases hpv : processVariableBlock ⟨size, st⟩ c with ⟨⟨sz, stor⟩, disp⟩
      rw [hpv] at p1 p2 p3 p4
      simp only at p1 p2 p3 p4
      subst p4
      obtain ⟨q1, q2, q3, q4⟩ := ih stor p3
      simp only [feedAll, hpv]
      refine ⟨?_, ?_, q3, q4⟩
      · rw [List.flatten_append, List.flatten_cons, List.append_assoc, q1,
          ← List.append_assoc, p1, List.append_assoc]
      · intro b hb
        rcases List.mem_append.mp hb with hb | hb
        · exact p2 b hb
        · exact q2 b hb

theorem flatten_length_uniform (size : Nat) :
    ∀ t : List (List Nat), (∀ b ∈ t, b.length = size) →
      t.flatten.length = t.length * size := by
  intro t
  induction t with
  | nil => simp
  | cons b tl ih =>
      intro hb
      simp only [List.flatten_cons, List.length_append, List.length_cons]
      rw [ih (fun x hx => hb x (List.mem_cons_of_mem b hx)),
        hb b (List.mem_cons_self b tl)]
      ring

theorem blocks_prefix_of_flatten (size : Nat) :
    ∀ (d1 d2 : List (List Nat)) (r1 r2 : List Nat),
      (∀ b ∈ d1, b.length = size) → (∀ b ∈ d2, b.length = size) →
      d1.flatten ++ r1 = d2.flatten ++ r2 →
      (∃ t, d1 ++ t = d2 ∧ t.flatten ++ r2 = r1)
        ∨ (∃ t, d2 ++ t = d1 ∧ t.flatten ++ r1 = r2) := by
  intro d1
  induction d1 with
  | nil =>
      intro d2 r1 r2 h1 h2 he
      left
      exact ⟨d2, by simp, by simpa using he.symm⟩
  | cons b1 t1 ih =>
      intro d2 r1 r2 h1 h2 he
      cases d2 with
      | nil =>
          right
          refine ⟨b1 :: t1, by simp, ?_⟩
          simpa using he
      | cons b2 t2 =>
          simp only [List.flatten_cons, List.append_assoc] at he
          have hlen : b1.length = b2.length := by
            rw [h1 b1 (List.mem_cons_self _ _), h2 b2 (List.mem_cons_self _ _)]
          obtain ⟨hb, ht⟩ := List.append_inj he hlen
          subst hb
          rcases ih t2 r1 r2 (fun x hx => h1 x (List.mem_cons_of_mem _ hx))
              (fun x hx => h2 x (List.mem_cons_of_mem _ hx)) ht with
            ⟨t, h, hf⟩ | ⟨t, h, hf⟩
          · left
            exact ⟨t, by rw [List.cons_append, h], hf⟩
          · right
            exact ⟨t, by rw [List.cons_append, h], hf⟩

/-- C5 counterexample: with block size 2 and a fully-consuming downstream, feeding
the two bytes `[1, 2]` as one call dispatches nothing (the exactly-full block is
retained in storage by the trailing-store step, since the write-through loop runs
only while strictly more than one block remains), while feeding the same bytes as
two calls `[1]`, `[2]` dispatches the block `[1, 2]` (the top-up completes the
buffered block and flushes it immediately): the dispatched-block sequences differ
for the same input bytes, refuting chunking invariance as claimed. -/
theorem fixedBlockChunkCounterexample :
    ([[1, 2]] : List (List Nat)).flatten = ([[1], [2]] : List (List Nat)).flatten
    ∧ (feedAll ⟨2, []⟩ [[1, 2]]).2 = []
    ∧ (feedAll ⟨2, []⟩ [[1], [2]]).2 = [[1, 2]]
    ∧ (feedAll ⟨2, []⟩ [[1, 2]]).2 ≠ (feedAll ⟨2, []⟩ [[1], [2]]).2 := by
  decide

/-- C5 (amended): for every fixed positive block size and every downstream processor
that fully consumes each dispatched block, feeding a byte sequence to
`processVariableBlock` split into arbitrary consecutive chunks dispatches the same
fixed-size blocks up to the final exactly-completed block, which one chunking may
still hold in its internal buffer: the dispatched blocks followed by the retained
buffer reconstruct the input identically for any two chunkings, every dispatched
block has exactly the block size, the retained buffer never exceeds one block, and
one chunking's dispatched sequence extends the other's by at most one block. -/
theorem fixedBlockChunkInvariance (size : Nat) (cs1 cs2 : List (List Nat))
    (hs : 0 < size) (hsame : cs1.flatten = cs2.flatten) :
    (feedAll ⟨size, []⟩ cs1).2.flatten ++ (feedAll ⟨size, []⟩ cs1).1.storage
        = (feedAll ⟨size, []⟩ cs2).2.flatten ++ (feedAll ⟨size, []⟩ cs2).1.storage
    ∧ (∀ b ∈ (feedAll ⟨size, []⟩ cs1).2, b.length = size)
    ∧ (feedAll ⟨size, []⟩ cs1).1.storage.length ≤ size
    ∧ (∃ t, t.length ≤ 1 ∧
        ((feedAll ⟨size, []⟩ cs1).2 ++ t = (feedAll ⟨size, []⟩ cs2).2
          ∨ (feedAll ⟨size, []⟩ cs2).2 ++ t = (feedAll ⟨size, []⟩ cs1).2)) := by
  obtain ⟨a1, a2, a3, _⟩ := feedAll_spec size hs cs1 [] (by simp)
  obtain ⟨b1, b2, b3, _⟩ := feedAll_spec size hs cs2 [] (by simp)
  have hcons : (feedAll ⟨size, []⟩ cs1).2.flatten ++ (feedAll ⟨size, []⟩ cs1).1.storage
      = (feedAll ⟨size, []⟩ cs2).2.flatten ++ (feedAll ⟨size, []⟩ cs2).1.storage := by
    rw [a1, b1, hsame]
  refine ⟨hcons, a2, a3, ?_⟩
  rcases blocks_prefix_of_flatten size (feedAll ⟨size, []⟩ cs1).2
      (feedAll ⟨size, []⟩ cs2).2 (feedAll ⟨size, []⟩ cs1).1.storage
      (feedAll ⟨size, []⟩ cs2).1.storage a2 b2 hcons with ⟨t, h, hf⟩ | ⟨t, h, hf⟩
  · refine ⟨t, ?_, Or.inl h⟩
    have htb : ∀ b ∈ t, b.length = size := by
      intro b hb
      apply b2
      rw [← h]
      exact List.mem_append_right _ hb
    have hfl : t.flatten.length = t.length * size := flatten_length_uniform size t htb
    have hle : t.flatten.length ≤ (feedAll ⟨size, []⟩ cs1).1.storage.length := by
      rw [← hf]
      simp
    by_contra hgt
    push_neg at hgt
    have h2 : 2 * size ≤ t.length * size := Nat.mul_le_mul_right size (by omega)
    omega
  · refine ⟨t, ?_, Or.inr h⟩
    have htb : ∀ b ∈ t, b.length = size := by
      intro b hb
      apply a2
      rw [← h]
      exact List.mem_append_right _ hb
    have hfl : t.flatten.length = t.length * size := flatten_length_uniform size t htb
    have hle : t.flatten.length ≤ (feedAll ⟨size, []⟩ cs2).1.storage.length := by
      rw [← hf]
      simp
    by_contra hgt
    push_neg at hgt
    have h2 : 2 * size ≤ t.length * size := Nat.mul_le_mul_right size (by omega)
    omega

theorem fixedBlockChunkInvariance_witness :
    (0 : Nat) < 2
    ∧ ([[1, 2]] : List (List Nat)).flatten = ([[1], [2]] : List (List Nat)).flatten
    ∧ (feedAll ⟨2, []⟩ [[1, 2]]).2.flatten ++ (feedAll ⟨2, []⟩ [[1, 2]]).1.storage
        = (feedAll ⟨2, []⟩ [[1], [2]]).2.flatten
          ++ (feedAll ⟨2, []⟩ [[1], [2]]).1.storage :=
  ⟨by decide, by decide,
    (fixedBlockChunkInvariance 2 [[1, 2]] [[1], [2]] (by decide) (by decide)).1⟩
